import Mathlib

/-!
Verification development for the vcs repository: the OIDC4VP verification
flow, the transaction/nonce manager, the format negotiator, the dynamic
client registration validator, and the wallet-cli linked-domain helper.

Functions whose Go sources are present (component/wallet-cli/pkg/walletrunner/
didconfig.go) are translated directly. The oidc4vp service, transaction
manager and client manager implementations are not among the sources (only
their tests and interface declarations are), so those operations are
modelled from the specification, as marked in their doc comments.
-/

namespace Vcs

/-! ## Go dynamic values for service types (didconfig.go) -/

/-- A Go interface value as it can appear in the Type field of a DID
service: a string, a string slice, a generic slice, or anything else. -/
inductive GoVal where
  | vstr (s : String)
  | vstrList (l : List String)
  | vanyList (l : List GoVal)
  | vother

/-- Translation of getServiceType (didconfig.go lines 65-84): the type
switch over the dynamic value of a DID service Type field. -/
def getServiceType : GoVal → String
  | .vstr s => s
  | .vstrList l =>
    match l with
    | [] => ""
    | t :: _ => t
  | .vanyList l =>
    match l with
    | [] => ""
    | t :: _ =>
      match t with
      | .vstr s => s
      | _ => ""
  | .vother => ""

/-! ## runLinkedDomainVerification (didconfig.go lines 25-63) -/

/-- Go strings.TrimSuffix: drop the suffix when present, else identity. -/
def trimSuffix (s suf : String) : String :=
  if s.endsWith suf then s.dropRight suf.length else s

/-- Outcome of marshalling a service endpoint to JSON and unmarshalling it
into the serviceEndpoint struct, abstracted: either of the two steps can
fail, otherwise an origins string array is obtained. -/
inductive EndpointDecode where
  | marshalErr (msg : String)
  | unmarshalErr (msg : String)
  | origins (urls : List String)
deriving DecidableEq, Repr

/-- One entry of DIDDocument.Service as consumed by
runLinkedDomainVerification. -/
structure DIDService where
  serviceType : GoVal
  endpoint : EndpointDecode

/-- Result of runLinkedDomainVerification; indexOutOfRange stands for the
Go runtime panic raised by Origins[0] on an empty slice. -/
inductive LDVResult where
  | ok
  | err (msg : String)
  | indexOutOfRange
deriving DecidableEq, Repr

/-- Body of the loop iteration of runLinkedDomainVerification once a
LinkedDomains service has been found: decode the endpoint, read
Origins[0] unconditionally, and call VerifyDIDAndDomain (abstracted as
the verify argument, none meaning success). -/
def processLinkedService (verify : String → String → Option String)
    (didID : String) (s : DIDService) : LDVResult :=
  match s.endpoint with
  | .marshalErr m => .err ("failed to get LinkedDomains service endpoint: " ++ m)
  | .unmarshalErr m => .err m
  | .origins [] => .indexOutOfRange
  | .origins (o :: _) =>
    match verify didID (trimSuffix o "/") with
    | some m => .err m
    | none => .ok

/-- The service loop of runLinkedDomainVerification: skip services whose
type is not LinkedDomains, process the first one that is, and fall
through to the no-service error. -/
def runLinkedDomainLoop (verify : String → String → Option String)
    (didID : String) : List DIDService → LDVResult
  | [] => .err ("no LinkedDomains service in DID " ++ didID)
  | s :: rest =>
    if getServiceType s.serviceType == "LinkedDomains" then
      processLinkedService verify didID s
    else
      runLinkedDomainLoop verify didID rest

/-- Translation of runLinkedDomainVerification: DID resolution is
abstracted as an Except value (the resolved service list or an error). -/
def runLinkedDomainVerification (verify : String → String → Option String)
    (didID : String) (resolution : Except String (List DIDService)) : LDVResult :=
  match resolution with
  | .error e => .err ("failed to resolve DID " ++ didID ++ ", err: " ++ e)
  | .ok services => runLinkedDomainLoop verify didID services

/-! ## OIDC4VP data model (pkg/service/oidc4vp/api.go and spec section 3)

The service implementation (oidc4vp_service.go) and the transaction
manager (txmanager.go) are not among the sources; only api.go and the
tests are. The operations below are therefore modelled from the spec. -/

/-- The closed vp_token format discriminator of ProcessedVPToken
(spec section 9 design note: jwt or ldp). -/
inductive Format where
  | jwt
  | ldp
deriving DecidableEq, Repr

/-- Rendering of a Format as it appears inside error messages. -/
def Format.toStr : Format → String
  | .jwt => "jwt"
  | .ldp => "ldp"

/-- A verified credential, with its claims flattened to a list of
(JSON path, value) pairs as far as constraint filters consult them. -/
structure Credential where
  id : String
  claims : List (String × String)
deriving DecidableEq, Repr

/-- A descriptor-mapping path: an index into the merged presentation
array, or an index into a presentation verifiableCredential array. -/
inductive JPath where
  | presIdx (i : Nat)
  | vcIdx (i : Nat)
deriving DecidableEq, Repr

/-- One entry of a Presentation Submission descriptor map. -/
structure DescriptorMapping where
  id : String
  path : JPath
  pathNested : Option JPath
deriving DecidableEq, Repr

/-- A parsed verifiable presentation as consumed by the verifier: its ID,
its holder DID, its presentation_submission descriptor map, and the
credentials it carries. -/
structure Presentation where
  id : String
  holderDID : String
  submission : List DescriptorMapping
  credentials : List Credential
deriving DecidableEq, Repr

/-- A constraint field of an input descriptor: alternative claim paths
plus a JSON-schema const filter value (spec step 9). -/
structure FieldConstraint where
  paths : List String
  filterConst : String
deriving DecidableEq, Repr

/-- An input descriptor of a Presentation Definition. -/
structure InputDescriptor where
  id : String
  fields : List FieldConstraint
deriving DecidableEq, Repr

/-- A Presentation Definition. -/
structure PresentationDefinition where
  inputDescriptors : List InputDescriptor
deriving DecidableEq, Repr

/-- A Transaction (spec section 3): identity, owning profile coordinates
and the Presentation Definition it was created with. -/
structure Transaction where
  id : String
  profileID : String
  profileVersion : String
  pd : PresentationDefinition
deriving DecidableEq, Repr

/-- A ProcessedVPToken (api.go lines 25-31), with the presentation parsed. -/
structure ProcessedVPToken where
  nonce : String
  signerDIDID : String
  vpTokenFormat : Format
  presentation : Presentation
deriving DecidableEq, Repr

/-- The slice of a verifier profile the verification flow consults: the
accepted presentation formats and the subject-matching policy switch. -/
structure VerifierProfile where
  presentationFormats : List Format
  vcSubjectCheck : Bool
deriving DecidableEq, Repr

/-! ## Client registration validator (pkg/service/clientmanager)

The client manager implementation is not among the sources (only its
tests are); the validation chain is modelled from spec section 4.5. -/

/-- The machine-readable codes of a RegistrationError. -/
inductive RegErrCode where
  | invalidClientMetadata
  | invalidRedirectURI
deriving DecidableEq, Repr

/-- A RegistrationError: code, offending field name, message. -/
structure RegistrationError where
  code : RegErrCode
  invalidValue : String
  message : String
deriving DecidableEq, Repr

/-- An error returned by ClientManager.Create: a RegistrationError or a
wrapped infrastructure error. -/
inductive CreateError where
  | registration (e : RegistrationError)
  | other (msg : String)
deriving DecidableEq, Repr

/-- The slice of the issuer profile OIDC configuration that client
registration consults. -/
structure OIDCConfig where
  scopesSupported : List String
  enableDynamicClientRegistration : Bool
deriving DecidableEq, Repr

/-- An issuer profile as seen by the client manager. -/
structure IssuerProfile where
  oidcConfig : Option OIDCConfig
deriving DecidableEq, Repr

/-- The inline jwks field, abstracted to the outcomes of marshalling it
back to JSON and unmarshalling into a key set, each carrying its cause. -/
inductive JwksField where
  | absent
  | marshalFailure (cause : String)
  | keySetFailure (cause : String)
  | wellFormed
deriving DecidableEq, Repr

/-- A dynamic client registration request, with the scope string already
split into its space-separated tokens. -/
structure ClientMetadata where
  scope : List String
  grantTypes : List String
  responseTypes : List String
  tokenEndpointAuthMethod : String
  redirectURIs : List String
  jsonWebKeys : JwksField
  jsonWebKeysURI : String
deriving DecidableEq, Repr

/-- The fixed allowed grant-type set (spec step 4). -/
def allowedGrantTypes : List String :=
  ["authorization_code", "urn:ietf:params:oauth:grant-type:pre-authorized_code"]

/-- The fixed allowed response-type set (spec step 5). -/
def allowedResponseTypes : List String := ["code"]

/-- The fixed allowed token-endpoint auth methods (spec step 6). -/
def allowedAuthMethods : List String :=
  ["none", "client_secret_post", "client_secret_basic"]

/-- Modelled from the spec: every requested scope token must be supported
by the profile (spec step 3). -/
def checkScope (cfg : OIDCConfig) (md : ClientMetadata) :
    Option RegistrationError :=
  match md.scope.find? (fun s => !(cfg.scopesSupported.contains s)) with
  | some s => some ⟨.invalidClientMetadata, "scope", "scope " ++ s ++ " not supported"⟩
  | none => none

/-- Modelled from the spec: grant types against the fixed allowed set
(spec step 4). -/
def checkGrantTypes (md : ClientMetadata) : Option RegistrationError :=
  match md.grantTypes.find? (fun g => !(allowedGrantTypes.contains g)) with
  | some g =>
    some ⟨.invalidClientMetadata, "grant_types", "grant type " ++ g ++ " not supported"⟩
  | none => none

/-- Modelled from the spec: response types against the fixed allowed set
(spec step 5). -/
def checkResponseTypes (md : ClientMetadata) : Option RegistrationError :=
  match md.responseTypes.find? (fun r => !(allowedResponseTypes.contains r)) with
  | some r =>
    some ⟨.invalidClientMetadata, "response_types", "response type " ++ r ++ " not supported"⟩
  | none => none

/-- Modelled from the spec: the token endpoint auth method must be among
the allowed methods; an empty value stands for the unset field, which the
tests show passes validation (the RFC default applies). -/
def checkAuthMethod (md : ClientMetadata) : Option RegistrationError :=
  if md.tokenEndpointAuthMethod == "" then none
  else if allowedAuthMethods.contains md.tokenEndpointAuthMethod then none
  else some ⟨.invalidClientMetadata, "token_endpoint_auth_method",
    "token endpoint auth method " ++ md.tokenEndpointAuthMethod ++ " not supported"⟩

/-- Modelled from the spec: an inline jwks must marshal and unmarshal
cleanly into a key set (spec step 7). -/
def checkJwks (md : ClientMetadata) : Option RegistrationError :=
  match md.jsonWebKeys with
  | .marshalFailure c =>
    some ⟨.invalidClientMetadata, "jwks", "marshal raw jwks: " ++ c⟩
  | .keySetFailure c =>
    some ⟨.invalidClientMetadata, "jwks", "unmarshal raw jwks into key set: " ++ c⟩
  | _ => none

/-- Modelled from the spec: jwks_uri and an inline jwks are mutually
exclusive (spec step 8). -/
def checkJwksExclusive (md : ClientMetadata) : Option RegistrationError :=
  if md.jsonWebKeysURI != "" && !(md.jsonWebKeys == .absent) then
    some ⟨.invalidClientMetadata, "", "jwks_uri and jwks cannot both be set"⟩
  else none

/-- Modelled from the spec: the authorization_code grant requires a
non-empty redirect URI list (spec step 9). -/
def checkRedirectRequired (md : ClientMetadata) : Option RegistrationError :=
  if md.grantTypes.contains "authorization_code" && md.redirectURIs.isEmpty then
    some ⟨.invalidRedirectURI, "redirect_uris",
      "redirect_uris must be set for authorization_code grant type"⟩
  else none

/-- Split a character list at the first :// separator, returning the
scheme characters before it and the remainder after it. -/
def splitSchemeAux : List Char → Option (List Char × List Char)
  | [] => none
  | ':' :: '/' :: '/' :: rest => some ([], rest)
  | c :: rest =>
    match splitSchemeAux rest with
    | some (sch, rem) => some (c :: sch, rem)
    | none => none

/-- Modelled from the spec: a redirect URI is valid when it is absolute
(a non-empty scheme before a :// separator), has a non-empty host, and
carries no fragment component (spec step 10). -/
def validRedirectURI (s : String) : Bool :=
  match splitSchemeAux s.toList with
  | some (scheme, rest) =>
    !scheme.isEmpty && !(rest.takeWhile (fun c => c != '/')).isEmpty
      && !(s.toList.any (fun c => c == '#'))
  | none => false

/-- Modelled from the spec: every redirect URI must be valid, the first
offending one being echoed in the error (spec step 10). -/
def checkRedirectURIs (md : ClientMetadata) : Option RegistrationError :=
  match md.redirectURIs.find? (fun u => !(validRedirectURI u)) with
  | some u =>
    some ⟨.invalidRedirectURI, "redirect_uris", "invalid redirect uri: " ++ u⟩
  | none => none

/-- First error among a list of optional check results. -/
def firstCheck : List (Option RegistrationError) → Option RegistrationError
  | [] => none
  | some e :: _ => some e
  | none :: rest => firstCheck rest

/-- The metadata validation chain in spec order (steps 3 to 10). -/
def validateMetadata (cfg : OIDCConfig) (md : ClientMetadata) :
    Option RegistrationError :=
  firstCheck [checkScope cfg md, checkGrantTypes md, checkResponseTypes md,
    checkAuthMethod md, checkJwks md, checkJwksExclusive md,
    checkRedirectRequired md, checkRedirectURIs md]

/-- The external collaborators of the client manager: the profile lookup
and the insert outcome of the client store (the generated client ID on
success). -/
structure ClientManagerEnv where
  getProfile : Except String IssuerProfile
  insertClient : Except String String

/-- Modelled from the spec: ClientManager.Create (spec section 4.5; the
implementation is not among the sources). Returns the created client ID
or the error, plus whether the store insert was attempted, so that
non-persistence on validation failure is observable. -/
def createClient (env : ClientManagerEnv) (md : ClientMetadata) :
    Except CreateError String × Bool :=
  match env.getProfile with
  | .error e => (.error (.other ("get profile: " ++ e)), false)
  | .ok profile =>
    match profile.oidcConfig with
    | none => (.error (.other "oidc config not set for profile"), false)
    | some cfg =>
      if !cfg.enableDynamicClientRegistration then
        (.error (.other "oidc config not set for profile"), false)
      else
        match validateMetadata cfg md with
        | some e => (.error (.registration e), false)
        | none =>
          match env.insertClient with
          | .error e => (.error (.other ("insert client: " ++ e)), true)
          | .ok clientID => (.ok clientID, true)

/-! ## Transaction manager nonce store -/

/-- Modelled from the spec: the transaction manager and its nonce store
(not among the sources) keep an opaque key-value mapping from one-time
nonces to Transactions with single-use semantics (spec sections 3, 4.1
and 5). -/
structure NonceStore where
  entries : List (String × Transaction)
deriving DecidableEq, Repr

/-- Modelled from the spec: GetByOneTimeToken (spec section 4.1) resolves
a nonce to its Transaction and atomically consumes it (check-and-delete);
an unknown or already consumed nonce yields found = false. -/
def getByOneTimeToken (st : NonceStore) (n : String) :
    Option Transaction × Bool × NonceStore :=
  match st.entries.lookup n with
  | some tx => (some tx, true, ⟨st.entries.filter (fun e => e.1 != n)⟩)
  | none => (none, false, st)

/-! ## Presentation-Exchange matching (spec section 4.3 steps 8-9) -/

/-- A credential satisfies a constraint field when one of the declared
alternative paths resolves in its claims to the const filter value. -/
def credSatisfiesField (c : Credential) (f : FieldConstraint) : Bool :=
  f.paths.any (fun p => c.claims.lookup p == some f.filterConst)

/-- A credential matches an input descriptor when it satisfies every
constraint field of the descriptor. -/
def credMatchesDescriptor (c : Credential) (d : InputDescriptor) : Bool :=
  d.fields.all (credSatisfiesField c)

/-- Resolve one descriptor mapping against the submitted presentations:
a presentation index with a nested verifiableCredential index addresses
the merged token list; a bare verifiableCredential index addresses the
single submitted presentation. -/
def resolveMapping (ps : List Presentation) (m : DescriptorMapping) :
    Option Credential :=
  match m.path, m.pathNested with
  | .presIdx i, some (.vcIdx j) => (ps.get? i).bind fun p => p.credentials.get? j
  | .vcIdx j, none => (ps.get? 0).bind fun p => p.credentials.get? j
  | _, _ => none

/-- The distinct credentials that the submission maps to a descriptor and
that satisfy its constraints. -/
def descriptorCandidates (ps : List Presentation)
    (maps : List DescriptorMapping) (d : InputDescriptor) : List Credential :=
  (((maps.filter (fun m => m.id == d.id)).filterMap
    (resolveMapping ps)).filter (fun c => credMatchesDescriptor c d)).dedup

/-- Modelled from the spec: every input descriptor must resolve to exactly
one matched credential (spec step 9); otherwise a match error. -/
def matchDescriptors (ps : List Presentation) (maps : List DescriptorMapping) :
    List InputDescriptor → Except String (List (String × Credential))
  | [] => .ok []
  | d :: ds =>
    match descriptorCandidates ps maps d with
    | [c] => (matchDescriptors ps maps ds).map (fun r => (d.id, c) :: r)
    | [] => .error ("match: no credential matches input descriptor " ++ d.id)
    | _ => .error ("match: more than one credential matches input descriptor " ++ d.id)

/-- Match the (merged) submission against the Presentation Definition. -/
def matchSubmission (pd : PresentationDefinition) (ps : List Presentation)
    (maps : List DescriptorMapping) : Except String (List (String × Credential)) :=
  matchDescriptors ps maps pd.inputDescriptors

/-- First element of the list already seen earlier in it (walking left to
right with an accumulator of seen elements). -/
def findDuplicateID (seen : List String) : List String → Option String
  | [] => none
  | x :: xs => if x ∈ seen then some x else findDuplicateID (x :: seen) xs

/-- Modelled from the spec: merging (spec step 8) requires the
presentation IDs to be pairwise distinct within the merge set, failing
with DuplicatePresentationIDError on a collision, and concatenates the
descriptor maps; a single presentation is passed through unchanged. -/
def mergePresentations (ps : List Presentation) :
    Except String (List DescriptorMapping) :=
  if ps.length ≤ 1 then .ok (ps.map (·.submission)).flatten
  else
    match findDuplicateID [] (ps.map (·.id)) with
    | some i => .error ("duplicate presentation ID: " ++ i)
    | none => .ok (ps.map (·.submission)).flatten

/-! ## VerifyOIDCVerifiablePresentation (spec section 4.3) -/

/-- The external collaborators of the verification flow, injected as
capabilities (spec section 9): profile lookup, cryptographic presentation
verification (none meaning success) and the outcome of
StoreReceivedClaims. -/
structure VerifyEnv where
  getProfile : String → String → Except String VerifierProfile
  verifyPresentation : Presentation → Option String
  storeResult : Except String Unit

/-- Observable side-effecting calls the verification flow performs, in
order: nonce resolution, profile lookup, cryptographic verification,
merge-and-match, and claim storage. -/
inductive VCall where
  | nonceLookup (n : String)
  | profileLookup (pid pver : String)
  | presVerify
  | matchStep
  | storeClaims (txID : String) (creds : List Credential)
deriving DecidableEq, Repr

/-- First token whose declared format the profile does not accept
(spec step 5). -/
def firstBadFormat (profile : VerifierProfile)
    (tokens : List ProcessedVPToken) : Option ProcessedVPToken :=
  tokens.find? (fun t => !(profile.presentationFormats.contains t.vpTokenFormat))

/-- The format-not-supported error message (spec step 5). -/
def formatErrMsg (f : Format) : String :=
  "profile does not support " ++ f.toStr ++ " vp_token format"

/-- First token whose claimed signer DID differs from the holder of its
presentation (spec step 6). -/
def firstSubjectMismatch (tokens : List ProcessedVPToken) :
    Option ProcessedVPToken :=
  tokens.find? (fun t => t.signerDIDID != t.presentation.holderDID)

/-- First cryptographic verification failure over the token list
(spec step 7). -/
def firstVerifyFailure (env : VerifyEnv) :
    List ProcessedVPToken → Option String
  | [] => none
  | t :: ts =>
    match env.verifyPresentation t.presentation with
    | some e => some e
    | none => firstVerifyFailure env ts

/-- Steps 7-10 of the flow, after nonce, profile, format and subject
checks have passed: verify signatures, merge, match, store. -/
def verifyStage2 (env : VerifyEnv) (store : NonceStore) (tx : Transaction)
    (tokens : List ProcessedVPToken) (tr : List VCall) :
    Except String Unit × NonceStore × List VCall :=
  let tr1 := tr ++ [VCall.presVerify]
  match firstVerifyFailure env tokens with
  | some e => (.error e, store, tr1)
  | none =>
    let ps := tokens.map (·.presentation)
    let tr2 := tr1 ++ [VCall.matchStep]
    match mergePresentations ps with
    | .error e => (.error e, store, tr2)
    | .ok maps =>
      match matchSubmission tx.pd ps maps with
      | .error e => (.error e, store, tr2)
      | .ok matched =>
        let creds := matched.map (·.2)
        let tr3 := tr2 ++ [VCall.storeClaims tx.id creds]
        match env.storeResult with
        | .error e => (.error e, store, tr3)
        | .ok _ => (.ok (), store, tr3)

/-- Steps 4-6: profile resolution, per-token format gate, optional
subject matching, then stage 2. -/
def verifyStage1 (env : VerifyEnv) (store : NonceStore) (tx : Transaction)
    (tokens : List ProcessedVPToken) (tr : List VCall) :
    Except String Unit × NonceStore × List VCall :=
  match env.getProfile tx.profileID tx.profileVersion with
  | .error e => (.error e, store, tr)
  | .ok profile =>
    match firstBadFormat profile tokens with
    | some t => (.error (formatErrMsg t.vpTokenFormat), store, tr)
    | none =>
      if profile.vcSubjectCheck then
        match firstSubjectMismatch tokens with
        | some t =>
          (.error (t.signerDIDID ++ " does not match with vp signer"), store, tr)
        | none => verifyStage2 env store tx tokens tr
      else verifyStage2 env store tx tokens tr

/-- Modelled from the spec: VerifyOIDCVerifiablePresentation (spec section
4.3 steps 1-10; the service implementation is not among the sources).
Returns the outcome, the nonce store as the consuming lookup left it, and
the trace of performed calls. An empty token set is rejected; the first
token nonce is consumed; the resolved Transaction must carry the given
transaction ID and every token must carry the same nonce, anything else
being an invalid nonce. -/
def verifyOIDC (env : VerifyEnv) (store : NonceStore) (txID : String)
    (tokens : List ProcessedVPToken) :
    Except String Unit × NonceStore × List VCall :=
  match tokens with
  | [] => (.error "must have at least one token", store, [])
  | t0 :: ts =>
    match getByOneTimeToken store t0.nonce with
    | (none, _, st) => (.error "invalid nonce", st, [VCall.nonceLookup t0.nonce])
    | (some tx, _, st) =>
      if tx.id == txID && (t0 :: ts).all (fun t => t.nonce == t0.nonce) then
        verifyStage1 env st tx (t0 :: ts)
          [VCall.nonceLookup t0.nonce,
           VCall.profileLookup tx.profileID tx.profileVersion]
      else (.error "invalid nonce", st, [VCall.nonceLookup t0.nonce])

end Vcs

namespace Vcs

/-- Claim C9: getServiceType is total (it is a Lean function) and returns
the string itself for a string value, the first element for a non-empty
string slice, the first element for a non-empty generic slice whose first
element is a string, and the empty string in every other case. -/
theorem getServiceType_total_spec :
    (∀ s, getServiceType (GoVal.vstr s) = s)
    ∧ (∀ s rest, getServiceType (GoVal.vstrList (s :: rest)) = s)
    ∧ (∀ s rest, getServiceType (GoVal.vanyList (GoVal.vstr s :: rest)) = s)
    ∧ getServiceType (GoVal.vstrList []) = ""
    ∧ getServiceType (GoVal.vanyList []) = ""
    ∧ (∀ rest, getServiceType (GoVal.vanyList (GoVal.vother :: rest)) = "")
    ∧ (∀ l rest, getServiceType (GoVal.vanyList (GoVal.vstrList l :: rest)) = "")
    ∧ (∀ l rest, getServiceType (GoVal.vanyList (GoVal.vanyList l :: rest)) = "")
    ∧ getServiceType GoVal.vother = "" := by
  refine ⟨fun s => rfl, fun s rest => rfl, fun s rest => rfl, rfl, rfl,
    fun rest => rfl, fun l rest => rfl, fun l rest => rfl, rfl⟩

/-- Claim C10: runLinkedDomainVerification processes only the first
LinkedDomains service; a document with no LinkedDomains service yields
the dedicated error; processing a LinkedDomains service reads Origins[0]
unconditionally, which is out of bounds exactly when the origins array is
empty and in bounds otherwise. -/
theorem runLinkedDomain_first_service_spec :
    (∀ (verify : String → String → Option String) (didID : String)
        (services : List DIDService),
        (∀ s ∈ services, getServiceType s.serviceType ≠ "LinkedDomains") →
        runLinkedDomainLoop verify didID services =
          .err ("no LinkedDomains service in DID " ++ didID))
    ∧ (∀ (verify : String → String → Option String) (didID : String)
        (pre : List DIDService) (s : DIDService) (post : List DIDService),
        (∀ t ∈ pre, getServiceType t.serviceType ≠ "LinkedDomains") →
        getServiceType s.serviceType = "LinkedDomains" →
        runLinkedDomainLoop verify didID (pre ++ s :: post) =
          processLinkedService verify didID s)
    ∧ (∀ (verify : String → String → Option String) (didID : String)
        (s : DIDService), s.endpoint = .origins [] →
        processLinkedService verify didID s = .indexOutOfRange)
    ∧ (∀ (verify : String → String → Option String) (didID : String)
        (s : DIDService) (o : String) (rest : List String),
        s.endpoint = .origins (o :: rest) →
        processLinkedService verify didID s ≠ .indexOutOfRange) := by
  refine ⟨?_, ?_, ?_, ?_⟩
  · intro verify didID services h
    induction services with
    | nil => rfl
    | cons s rest ih =>
      have hs : getServiceType s.serviceType ≠ "LinkedDomains" :=
        h s (List.mem_cons_self s rest)
      have hrest : ∀ t ∈ rest, getServiceType t.serviceType ≠ "LinkedDomains" :=
        fun t ht => h t (List.mem_cons_of_mem s ht)
      simp only [runLinkedDomainLoop]
      rw [if_neg (by simpa using hs)]
      exact ih hrest
  · intro verify didID pre s post hpre hs
    induction pre with
    | nil =>
      simp only [List.nil_append, runLinkedDomainLoop]
      rw [if_pos (by simpa using hs)]
    | cons t rest ih =>
      have ht : getServiceType t.serviceType ≠ "LinkedDomains" :=
        hpre t (List.mem_cons_self t rest)
      have hrest : ∀ u ∈ rest, getServiceType u.serviceType ≠ "LinkedDomains" :=
        fun u hu => hpre u (List.mem_cons_of_mem t hu)
      simp only [List.cons_append, runLinkedDomainLoop]
      rw [if_neg (by simpa using ht)]
      exact ih hrest
  · intro verify didID s h
    simp only [processLinkedService, h]
  · intro verify didID s o rest h
    simp only [processLinkedService, h]
    cases verify didID (trimSuffix o "/") <;> simp

/-- After filtering away every entry with key n, looking up n fails. -/
theorem lookup_filter_ne_eq_none (l : List (String × Transaction)) (n : String) :
    (l.filter (fun e => e.1 != n)).lookup n = none := by
  induction l with
  | nil => rfl
  | cons e l ih =>
    by_cases h : e.1 = n
    · simpa [List.filter_cons, h] using ih
    · have hne : (n == e.1) = false := beq_eq_false_iff_ne.mpr (Ne.symm h)
      simp [List.filter_cons, h, List.lookup, hne, ih]

/-- Claim C1: the nonce-consuming lookup succeeds at most once: a first
call returning a Transaction leaves a store in which the same nonce no
longer resolves, and a verification attempt whose first token carries a
nonce absent from the store fails with the invalid-nonce error after the
nonce lookup alone, performing no profile lookup, signature verification,
matching or claim storage. -/
theorem nonce_consumed_once :
    (∀ (st : NonceStore) (n : String) (tx : Transaction) (b : Bool)
        (st2 : NonceStore),
        getByOneTimeToken st n = (some tx, b, st2) →
        getByOneTimeToken st2 n = (none, false, st2))
    ∧ (∀ (env : VerifyEnv) (st : NonceStore) (txID : String)
        (t : ProcessedVPToken) (ts : List ProcessedVPToken),
        st.entries.lookup t.nonce = none →
        verifyOIDC env st txID (t :: ts) =
          (.error "invalid nonce", st, [VCall.nonceLookup t.nonce])) := by
  constructor
  · intro st n tx b st2 h
    cases hl : st.entries.lookup n with
    | none =>
      rw [getByOneTimeToken, hl] at h
      simp [Prod.ext_iff] at h
    | some tx0 =>
      rw [getByOneTimeToken, hl] at h
      have h3 : (⟨st.entries.filter (fun e => e.1 != n)⟩ : NonceStore) = st2 :=
        congrArg (fun p => p.2.2) h
      rw [← h3]
      simp [getByOneTimeToken, lookup_filter_ne_eq_none]
  · intro env st txID t ts h
    rw [verifyOIDC, getByOneTimeToken, h]

/-- A transaction, environment and token used by concrete witnesses of
the nonce-consumption claim. -/
def txW : Transaction := ⟨"txID1", "p1", "v1", ⟨[]⟩⟩

/-- An environment whose collaborators are never reached in the
invalid-nonce scenario. -/
def envW : VerifyEnv := ⟨fun _ _ => .error "no profile", fun _ => none, .ok ()⟩

/-- A token carrying nonce n1. -/
def tokNW : ProcessedVPToken := ⟨"n1", "did:ex:w", .jwt, ⟨"vpW", "did:ex:w", [], []⟩⟩

/-- Witness for C1: consuming n1 from a one-entry store empties it, after
which the lookup fails, and verification against the emptied store stops
at the nonce step. -/
theorem nonce_consumed_once_witness :
    getByOneTimeToken (NonceStore.mk []) "n1" = (none, false, NonceStore.mk [])
    ∧ verifyOIDC envW (NonceStore.mk []) "txID1" [tokNW] =
        (.error "invalid nonce", NonceStore.mk [], [VCall.nonceLookup "n1"]) := by
  constructor
  · exact nonce_consumed_once.1 ⟨[("n1", txW)]⟩ "n1" txW true ⟨[]⟩ (by decide)
  · exact nonce_consumed_once.2 envW ⟨[]⟩ "txID1" tokNW [] rfl

/-- The credential of the single-token success scenario. -/
def credW : Credential := ⟨"credW", [("$.credentialSubject.degree.type", "PhDDegree")]⟩

/-- An input descriptor whose constraint filter the scenario credential
satisfies. -/
def descW : InputDescriptor :=
  ⟨"descW", [⟨["$.credentialSubject.degree.type"], "PhDDegree"⟩]⟩

/-- The Presentation Definition of the scenario transaction. -/
def pdW : PresentationDefinition := ⟨[descW]⟩

/-- The scenario transaction, bound to nonce1 below. -/
def txS : Transaction := ⟨"txID1", "p1", "v1", pdW⟩

/-- The submitted presentation: its submission maps descW to its only
credential. -/
def presS : Presentation :=
  ⟨"vp1", "did:ex:holder", [⟨"descW", .vcIdx 0, none⟩], [credW]⟩

/-- The submitted token: nonce1, signer equal to the holder, jwt format. -/
def tokS : ProcessedVPToken := ⟨"nonce1", "did:ex:holder", .jwt, presS⟩

/-- The resolved profile: accepts jwt presentations, checks the subject. -/
def profS : VerifierProfile := ⟨[.jwt], true⟩

/-- The nonce store holding the single binding nonce1 to the scenario
transaction. -/
def storeS : NonceStore := ⟨[("nonce1", txS)]⟩

/-- The environment of the scenario, parameterised by the outcome of
StoreReceivedClaims. -/
def envS (storeRes : Except String Unit) : VerifyEnv :=
  ⟨fun _ _ => .ok profS, fun _ => none, storeRes⟩

/-- Claim C2: when every verification step succeeds and only
StoreReceivedClaims fails, the storage error is surfaced to the caller,
and nothing is rolled back: the nonce binding is gone from the returned
store, so the consumed nonce no longer resolves and the interaction
cannot be retried. -/
theorem store_failure_nonce_stays_consumed :
    ∀ (e : String),
      verifyOIDC (envS (.error e)) storeS "txID1" [tokS] =
        (.error e, NonceStore.mk [],
          [VCall.nonceLookup "nonce1", VCall.profileLookup "p1" "v1",
           VCall.presVerify, VCall.matchStep,
           VCall.storeClaims "txID1" [credW]])
      ∧ getByOneTimeToken (NonceStore.mk []) "nonce1" =
          (none, false, NonceStore.mk []) := by
  intro e
  exact ⟨rfl, rfl⟩

/-- Claim C3: when the nonce resolves to the transaction, every token
shares it, and the profile resolves, a token whose declared format the
profile does not accept makes the whole call fail with the
format-not-supported error, and no claims are stored. -/
theorem unsupported_format_rejected :
    ∀ (env : VerifyEnv) (st : NonceStore) (txID : String)
      (t0 : ProcessedVPToken) (ts : List ProcessedVPToken)
      (tx : Transaction) (b : Bool) (st2 : NonceStore)
      (profile : VerifierProfile) (t : ProcessedVPToken),
      getByOneTimeToken st t0.nonce = (some tx, b, st2) →
      tx.id = txID →
      (∀ u ∈ t0 :: ts, u.nonce = t0.nonce) →
      env.getProfile tx.profileID tx.profileVersion = .ok profile →
      firstBadFormat profile (t0 :: ts) = some t →
      (verifyOIDC env st txID (t0 :: ts)).1 =
          .error (formatErrMsg t.vpTokenFormat)
        ∧ ∀ (a : String) (cs : List Credential),
            VCall.storeClaims a cs ∉ (verifyOIDC env st txID (t0 :: ts)).2.2 := by
  intro env st txID t0 ts tx b st2 profile t hlookup htx hnonce hprof hbad
  have hcond : (tx.id == txID && (t0 :: ts).all fun u => u.nonce == t0.nonce) = true := by
    simp only [Bool.and_eq_true, beq_iff_eq, List.all_eq_true]
    exact ⟨htx, fun u hu => hnonce u hu⟩
  have hrun : verifyOIDC env st txID (t0 :: ts) =
      (.error (formatErrMsg t.vpTokenFormat), st2,
        [VCall.nonceLookup t0.nonce,
         VCall.profileLookup tx.profileID tx.profileVersion]) := by
    simp only [verifyOIDC, hlookup, hcond, if_true, verifyStage1, hprof, hbad]
  rw [hrun]
  exact ⟨rfl, by intro a cs; simp⟩

/-- A token declaring the ldp format against the jwt-only scenario
profile. -/
def tokLdp : ProcessedVPToken := ⟨"nonce1", "did:ex:holder", .ldp, presS⟩

/-- Witness for C3: an ldp token against the jwt-only profile fails with
the format error and stores nothing. -/
theorem unsupported_format_rejected_witness :
    (verifyOIDC (envS (.ok ())) storeS "txID1" [tokLdp]).1 =
      .error "profile does not support ldp vp_token format"
    ∧ ∀ (a : String) (cs : List Credential),
        VCall.storeClaims a cs ∉ (verifyOIDC (envS (.ok ())) storeS "txID1" [tokLdp]).2.2 := by
  have h := unsupported_format_rejected (envS (.ok ())) storeS "txID1" tokLdp []
    txS true ⟨[]⟩ profS tokLdp (by decide) rfl (by simp) rfl (by decide)
  exact ⟨h.1, h.2⟩

/-- findDuplicateID returns none exactly when the remaining list has no
duplicate and avoids everything already seen. -/
theorem findDuplicateID_eq_none (l : List String) : ∀ seen,
    findDuplicateID seen l = none ↔ l.Nodup ∧ ∀ x ∈ l, x ∉ seen := by
  induction l with
  | nil => intro seen; simp [findDuplicateID]
  | cons x xs ih =>
    intro seen
    by_cases hx : x ∈ seen
    · simp [findDuplicateID, hx]
    · rw [findDuplicateID, if_neg hx, ih (x :: seen)]
      constructor
      · rintro ⟨hnd, hall⟩
        refine ⟨List.nodup_cons.mpr
          ⟨fun hmem => (hall x hmem) (List.mem_cons_self x seen), hnd⟩, ?_⟩
        intro y hy
        rcases List.mem_cons.mp hy with rfl | hys
        · exact hx
        · exact fun hsy => hall y hys (List.mem_cons_of_mem x hsy)
      · rintro ⟨hnd, hall⟩
        obtain ⟨hxnot, hnd2⟩ := List.nodup_cons.mp hnd
        refine ⟨hnd2, ?_⟩
        intro y hy hymem
        rcases List.mem_cons.mp hymem with rfl | hys
        · exact hxnot hy
        · exact hall y (List.mem_cons_of_mem x hy) hys

/-- A value returned by findDuplicateID was already seen or genuinely
occurs twice in the list. -/
theorem findDuplicateID_duplicate (l : List String) : ∀ seen d,
    findDuplicateID seen l = some d → (d ∈ seen ∧ d ∈ l) ∨ l.Duplicate d := by
  induction l with
  | nil => intro seen d h; simp [findDuplicateID] at h
  | cons x xs ih =>
    intro seen d h
    by_cases hx : x ∈ seen
    · rw [findDuplicateID, if_pos hx] at h
      obtain rfl : x = d := Option.some.inj h
      exact Or.inl ⟨hx, List.mem_cons_self x xs⟩
    · rw [findDuplicateID, if_neg hx] at h
      rcases ih (x :: seen) d h with ⟨hseen, hmem⟩ | hdup
      · rcases List.mem_cons.mp hseen with rfl | hs
        · exact Or.inr (List.Mem.duplicate_cons_self hmem)
        · exact Or.inl ⟨hs, List.mem_cons_of_mem x hmem⟩
      · exact Or.inr (hdup.duplicate_cons x)

/-- Claim C4: with more than one token reaching the merge step, a
collision in the presentation IDs, the both-empty case included, makes
the call fail with the duplicate-presentation-ID error naming an ID that
really occurs twice, and no claims are stored. -/
theorem duplicate_presentation_id_rejected :
    ∀ (env : VerifyEnv) (st : NonceStore) (txID : String)
      (t0 : ProcessedVPToken) (ts : List ProcessedVPToken)
      (tx : Transaction) (b : Bool) (st2 : NonceStore)
      (profile : VerifierProfile),
      getByOneTimeToken st t0.nonce = (some tx, b, st2) →
      tx.id = txID →
      (∀ u ∈ t0 :: ts, u.nonce = t0.nonce) →
      env.getProfile tx.profileID tx.profileVersion = .ok profile →
      firstBadFormat profile (t0 :: ts) = none →
      firstSubjectMismatch (t0 :: ts) = none →
      firstVerifyFailure env (t0 :: ts) = none →
      ¬ ((t0 :: ts).map (fun u => u.presentation.id)).Nodup →
      ∃ d, ((t0 :: ts).map (fun u => u.presentation.id)).Duplicate d
        ∧ (verifyOIDC env st txID (t0 :: ts)).1 =
            .error ("duplicate presentation ID: " ++ d)
        ∧ ∀ (a : String) (cs : List Credential),
            VCall.storeClaims a cs ∉ (verifyOIDC env st txID (t0 :: ts)).2.2 := by
  intro env st txID t0 ts tx b st2 profile hlookup htx hnonce hprof hfmt hsub hvf hdup
  have hne : findDuplicateID [] ((t0 :: ts).map (fun u => u.presentation.id)) ≠ none := by
    intro hnone
    exact hdup ((findDuplicateID_eq_none _ []).mp hnone).1
  obtain ⟨d, hd⟩ := Option.ne_none_iff_exists'.mp hne
  have hdDup : ((t0 :: ts).map (fun u => u.presentation.id)).Duplicate d := by
    rcases findDuplicateID_duplicate _ [] d hd with ⟨hin, _⟩ | h
    · simp at hin
    · exact h
  obtain ⟨t1, ts'⟩ : ∃ t1 ts2, ts = t1 :: ts2 := by
    cases ts with
    | nil => exact absurd (by simp) hdup
    | cons t1 ts2 => exact ⟨t1, ts2, rfl⟩
  obtain ⟨ts2, rfl⟩ := ts'
  have hcond : (tx.id == txID && (t0 :: t1 :: ts2).all fun u => u.nonce == t0.nonce) = true := by
    simp only [Bool.and_eq_true, beq_iff_eq, List.all_eq_true]
    exact ⟨htx, fun u hu => hnonce u hu⟩
  have hids : ((t0 :: t1 :: ts2).map (fun u => u.presentation)).map (·.id) =
      (t0 :: t1 :: ts2).map (fun u => u.presentation.id) := by
    rw [List.map_map]; rfl
  have hlen : ¬ ((t0 :: t1 :: ts2).map (fun u => u.presentation)).length ≤ 1 := by
    simp
  have hmerge : mergePresentations ((t0 :: t1 :: ts2).map (fun u => u.presentation)) =
      .error ("duplicate presentation ID: " ++ d) := by
    rw [mergePresentations, if_neg hlen, hids, hd]
  have hrun : verifyOIDC env st txID (t0 :: t1 :: ts2) =
      (.error ("duplicate presentation ID: " ++ d), st2,
        [VCall.nonceLookup t0.nonce,
         VCall.profileLookup tx.profileID tx.profileVersion,
         VCall.presVerify, VCall.matchStep]) := by
    cases hvc : profile.vcSubjectCheck with
    | true =>
      simp only [verifyOIDC, hlookup, hcond, if_true, verifyStage1, hprof, hfmt,
        hvc, hsub, verifyStage2, hvf, hmerge]
      rfl
    | false =>
      simp only [verifyOIDC, hlookup, hcond, if_true, verifyStage1, hprof, hfmt,
        hvc, verifyStage2, hvf, hmerge]
      rfl
  refine ⟨d, hdDup, ?_, ?_⟩
  · rw [hrun]
  · rw [hrun]; intro a cs; simp

/-- First of the two presentations sharing the empty ID. -/
def presD1 : Presentation := ⟨"", "did:ex:holder", [], [credW]⟩

/-- Second of the two presentations sharing the empty ID. -/
def presD2 : Presentation := ⟨"", "did:ex:holder", [], []⟩

/-- Token wrapping the first empty-ID presentation. -/
def tokD1 : ProcessedVPToken := ⟨"nonce1", "did:ex:holder", .jwt, presD1⟩

/-- Token wrapping the second empty-ID presentation. -/
def tokD2 : ProcessedVPToken := ⟨"nonce1", "did:ex:holder", .jwt, presD2⟩

/-- Witness for C4: merging two tokens whose presentations both carry the
empty ID fails with the duplicate-presentation-ID error. -/
theorem duplicate_presentation_id_rejected_witness :
    ∃ d, (([tokD1, tokD2]).map (fun u => u.presentation.id)).Duplicate d
      ∧ (verifyOIDC (envS (.ok ())) storeS "txID1" [tokD1, tokD2]).1 =
          .error ("duplicate presentation ID: " ++ d)
      ∧ ∀ (a : String) (cs : List Credential),
          VCall.storeClaims a cs ∉
            (verifyOIDC (envS (.ok ())) storeS "txID1" [tokD1, tokD2]).2.2 :=
  duplicate_presentation_id_rejected (envS (.ok ())) storeS "txID1" tokD1 [tokD2]
    txS true ⟨[]⟩ profS (by decide) rfl
    (by intro u hu; rcases List.mem_cons.mp hu with rfl | hu2; · rfl
        · rcases List.mem_cons.mp hu2 with rfl | h3; · rfl
          · exact absurd h3 (List.not_mem_nil u))
    rfl (by decide) (by decide) (by decide) (by decide)

/-- The phd-degree input descriptor of the two-descriptor definition
(oidc4vp_service_test.go, twoInputDescriptors). -/
def descPhd : InputDescriptor :=
  ⟨"phd-degree",
   [⟨["$.credentialSubject.degree.type", "$.vc.credentialSubject.degree.type"],
     "PhDDegree"⟩]⟩

/-- The bachelor-degree input descriptor of the two-descriptor
definition. -/
def descBach : InputDescriptor :=
  ⟨"bachelor-degree",
   [⟨["$.credentialSubject.degree.type", "$.vc.credentialSubject.degree.type"],
     "BachelorDegree"⟩]⟩

/-- The two-descriptor Presentation Definition. -/
def pdTwo : PresentationDefinition := ⟨[descPhd, descBach]⟩

/-- The credential satisfying the phd-degree constraint filter. -/
def credPhd : Credential :=
  ⟨"credPhd", [("$.credentialSubject.degree.type", "PhDDegree")]⟩

/-- The credential satisfying the bachelor-degree constraint filter. -/
def credBach : Credential :=
  ⟨"credBach", [("$.credentialSubject.degree.type", "BachelorDegree")]⟩

/-- Descriptor mapping of the merged submission for the phd descriptor:
presentation 0, nested verifiableCredential 0. -/
def mPhd : DescriptorMapping := ⟨"phd-degree", .presIdx 0, some (.vcIdx 0)⟩

/-- Descriptor mapping of the merged submission for the bachelor
descriptor: presentation 1, nested verifiableCredential 0. -/
def mBach : DescriptorMapping := ⟨"bachelor-degree", .presIdx 1, some (.vcIdx 0)⟩

/-- The merged submission both wallets attach (as in the test, both
tokens carry the full merged descriptor map). -/
def mergedSub : List DescriptorMapping := [mPhd, mBach]

/-- First presentation of the merge scenario, carrying the phd
credential, parameterised by its presentation ID. -/
def presM1 (i : String) : Presentation := ⟨i, "did:ex:h1", mergedSub, [credPhd]⟩

/-- Second presentation of the merge scenario, carrying the bachelor
credential. -/
def presM2 (i : String) : Presentation := ⟨i, "did:ex:h2", mergedSub, [credBach]⟩

/-- Token wrapping the first merge-scenario presentation. -/
def tokM1 (i : String) : ProcessedVPToken := ⟨"nonce1", "did:ex:h1", .jwt, presM1 i⟩

/-- Token wrapping the second merge-scenario presentation. -/
def tokM2 (i : String) : ProcessedVPToken := ⟨"nonce1", "did:ex:h2", .jwt, presM2 i⟩

/-- The merge-scenario transaction, built over the two-descriptor
definition. -/
def txM : Transaction := ⟨"txID1", "p1", "v1", pdTwo⟩

/-- The nonce store binding nonce1 to the merge-scenario transaction. -/
def storeM : NonceStore := ⟨[("nonce1", txM)]⟩

/-- Claim C5: two tokens with distinct (non-empty) presentation IDs and
matching nonces, each carrying the credential satisfying one of the two
input descriptors, verify successfully: the merged submission resolves
each descriptor to exactly its matching credential and the claims are
stored with the matched credential set. -/
theorem merged_two_tokens_success :
    ∀ (id1 id2 : String), id1 ≠ "" → id2 ≠ "" → id1 ≠ id2 →
      matchSubmission pdTwo [presM1 id1, presM2 id2] [mPhd, mBach, mPhd, mBach] =
        .ok [("phd-degree", credPhd), ("bachelor-degree", credBach)]
      ∧ verifyOIDC (envS (.ok ())) storeM "txID1" [tokM1 id1, tokM2 id2] =
        (.ok (), NonceStore.mk [],
          [VCall.nonceLookup "nonce1", VCall.profileLookup "p1" "v1",
           VCall.presVerify, VCall.matchStep,
           VCall.storeClaims "txID1" [credPhd, credBach]]) := by
  intro id1 id2 h1 h2 h3
  have hdup : findDuplicateID [] [id1, id2] = none := by
    simp only [findDuplicateID]
    rw [if_neg (List.not_mem_nil id1),
      if_neg (fun hmem => (Ne.symm h3) (List.mem_singleton.mp hmem))]
  have hmerge : mergePresentations
      (List.map (fun t => t.presentation) [tokM1 id1, tokM2 id2]) =
      .ok [mPhd, mBach, mPhd, mBach] := by
    have hm : mergePresentations [presM1 id1, presM2 id2] =
        .ok [mPhd, mBach, mPhd, mBach] := by
      unfold mergePresentations
      rw [show List.map (fun p => p.id) [presM1 id1, presM2 id2] = [id1, id2] from rfl,
        hdup]
      rfl
    exact hm
  have hvf : firstVerifyFailure (envS (.ok ())) [tokM1 id1, tokM2 id2] = none := rfl
  have hmatch : matchSubmission txM.pd
      (List.map (fun t => t.presentation) [tokM1 id1, tokM2 id2])
      [mPhd, mBach, mPhd, mBach] =
      .ok [("phd-degree", credPhd), ("bachelor-degree", credBach)] := rfl
  have step1 : verifyOIDC (envS (.ok ())) storeM "txID1" [tokM1 id1, tokM2 id2] =
      verifyStage2 (envS (.ok ())) (NonceStore.mk []) txM [tokM1 id1, tokM2 id2]
        [VCall.nonceLookup "nonce1", VCall.profileLookup "p1" "v1"] := rfl
  have step2 : verifyStage2 (envS (.ok ())) (NonceStore.mk []) txM
      [tokM1 id1, tokM2 id2]
      [VCall.nonceLookup "nonce1", VCall.profileLookup "p1" "v1"] =
      (.ok (), NonceStore.mk [],
        [VCall.nonceLookup "nonce1", VCall.profileLookup "p1" "v1",
         VCall.presVerify, VCall.matchStep,
         VCall.storeClaims "txID1" [credPhd, credBach]]) := by
    simp only [verifyStage2, hvf, hmerge, hmatch]
    rfl
  exact ⟨rfl, step1.trans step2⟩

/-- Witness for C5: the merge succeeds with the concrete IDs vp1
and vp2. -/
theorem merged_two_tokens_success_witness :
    matchSubmission pdTwo [presM1 "vp1", presM2 "vp2"] [mPhd, mBach, mPhd, mBach] =
      .ok [("phd-degree", credPhd), ("bachelor-degree", credBach)]
    ∧ verifyOIDC (envS (.ok ())) storeM "txID1" [tokM1 "vp1", tokM2 "vp2"] =
      (.ok (), NonceStore.mk [],
        [VCall.nonceLookup "nonce1", VCall.profileLookup "p1" "v1",
         VCall.presVerify, VCall.matchStep,
         VCall.storeClaims "txID1" [credPhd, credBach]]) :=
  merged_two_tokens_success "vp1" "vp2" (by decide) (by decide) (by decide)

/-- The key types the format negotiator distinguishes in this scenario
(kms.ED25519Type and kms.ECDSAP256TypeDER). -/
inductive KeyType where
  | ed25519
  | ecdsaP256DER
deriving DecidableEq, Repr

/-- Modelled from the spec: the deterministic key-type to JSON Web
Signature algorithm mapping of the format negotiator (spec section 4.2). -/
def keyTypeToJWSAlg : KeyType → String
  | .ed25519 => "EdDSA"
  | .ecdsaP256DER => "ES256"

/-- Modelled from the spec: the fixed ordered proof-suite list a key type
contributes for linked-data proofs (spec section 4.2 and the expected
values of Test_GetSupportedVPFormats). -/
def keyTypeToProofTypes : KeyType → List String
  | _ => ["Ed25519Signature2018", "Ed25519Signature2020", "JsonWebSignature2020"]

/-- The advertised capability set (presexch.Format): absent entries are
none, present entries carry the algorithm or proof-suite names. -/
structure SupportedFormats where
  jwtVC : Option (List String)
  jwtVP : Option (List String)
  ldpVC : Option (List String)
  ldpVP : Option (List String)
deriving DecidableEq, Repr

/-- Modelled from the spec: GetSupportedVPFormats (the implementation is
not among the sources) maps key types to deduplicated JWS algorithms and
proof suites and gates each entry independently on whether the format is
in the accepted VC and VP format lists, leaving it absent otherwise. -/
def getSupportedVPFormats (keyTypes : List KeyType)
    (vpFormats vcFormats : List Format) : SupportedFormats :=
  let algs := (keyTypes.map keyTypeToJWSAlg).dedup
  let proofs := ((keyTypes.map keyTypeToProofTypes).flatten).dedup
  { jwtVC := if Format.jwt ∈ vcFormats then some algs else none
    jwtVP := if Format.jwt ∈ vpFormats then some algs else none
    ldpVC := if Format.ldp ∈ vcFormats then some proofs else none
    ldpVP := if Format.ldp ∈ vpFormats then some proofs else none }

/-- Claim C6: key types Ed25519 and ECDSA-P256 with accepted VP formats
jwt and accepted VC formats ldp yield JwtVP present with EdDSA and ES256,
JwtVC absent, LdpVC present with the three fixed proof suites and LdpVP
absent; and in general a format not accepted for VC or VP leaves the
corresponding entry absent, never an empty list. -/
theorem getSupportedVPFormats_gating :
    (getSupportedVPFormats [.ed25519, .ecdsaP256DER] [.jwt] [.ldp] =
      { jwtVC := none, jwtVP := some ["EdDSA", "ES256"],
        ldpVC := some ["Ed25519Signature2018", "Ed25519Signature2020",
          "JsonWebSignature2020"],
        ldpVP := none })
    ∧ (∀ (kts : List KeyType) (vps vcs : List Format),
        Format.jwt ∉ vcs → (getSupportedVPFormats kts vps vcs).jwtVC = none)
    ∧ (∀ (kts : List KeyType) (vps vcs : List Format),
        Format.jwt ∉ vps → (getSupportedVPFormats kts vps vcs).jwtVP = none)
    ∧ (∀ (kts : List KeyType) (vps vcs : List Format),
        Format.ldp ∉ vcs → (getSupportedVPFormats kts vps vcs).ldpVC = none)
    ∧ (∀ (kts : List KeyType) (vps vcs : List Format),
        Format.ldp ∉ vps → (getSupportedVPFormats kts vps vcs).ldpVP = none) := by
  refine ⟨by decide, ?_, ?_, ?_, ?_⟩ <;>
    intro kts vps vcs h <;> simp [getSupportedVPFormats, h]

/-- Witness for C6: with no accepted formats at all, every capability
entry is absent. -/
theorem getSupportedVPFormats_gating_witness :
    (getSupportedVPFormats [.ed25519] [] []).jwtVC = none
    ∧ (getSupportedVPFormats [.ed25519] [] []).jwtVP = none
    ∧ (getSupportedVPFormats [.ed25519] [] []).ldpVC = none
    ∧ (getSupportedVPFormats [.ed25519] [] []).ldpVP = none :=
  ⟨getSupportedVPFormats_gating.2.1 [.ed25519] [] [] (by decide),
   getSupportedVPFormats_gating.2.2.1 [.ed25519] [] [] (by decide),
   getSupportedVPFormats_gating.2.2.2.1 [.ed25519] [] [] (by decide),
   getSupportedVPFormats_gating.2.2.2.2 [.ed25519] [] [] (by decide)⟩

/-- The registration environment of the scope scenario: a profile with
supported scopes foo and bar, dynamic registration enabled, and a store
that would accept the insert. -/
def envC7 : ClientManagerEnv := ⟨.ok ⟨some ⟨["foo", "bar"], true⟩⟩, .ok "client-1"⟩

/-- Claim C7: whatever the rest of the metadata, requesting scope baz
against a profile supporting only foo and bar fails with a
RegistrationError carrying code InvalidClientMetadata, invalid value
scope and message scope baz not supported, and the client is not
persisted (the insert is never attempted). -/
theorem scope_not_supported_rejected :
    ∀ (md : ClientMetadata),
      createClient envC7 { md with scope := ["baz"] } =
        (.error (.registration
          ⟨.invalidClientMetadata, "scope", "scope baz not supported"⟩), false) := by
  intro md
  rfl

/-- Claim C8: once the earlier validation steps pass, the first redirect
URI that is not an absolute URI with scheme and host and without a
fragment makes Create fail with InvalidRedirectURI on redirect_uris,
echoing the URI verbatim, without persisting the client; and the three
violation shapes (relative, scheme-less, fragment-carrying) are indeed
invalid while a plain https URI is valid. -/
theorem invalid_redirect_uri_rejected :
    (∀ (env : ClientManagerEnv) (cfg : OIDCConfig) (md : ClientMetadata)
        (u : String),
      env.getProfile = .ok ⟨some cfg⟩ →
      cfg.enableDynamicClientRegistration = true →
      checkScope cfg md = none →
      checkGrantTypes md = none →
      checkResponseTypes md = none →
      checkAuthMethod md = none →
      checkJwks md = none →
      checkJwksExclusive md = none →
      checkRedirectRequired md = none →
      md.redirectURIs.find? (fun x => !(validRedirectURI x)) = some u →
      createClient env md =
        (.error (.registration ⟨.invalidRedirectURI, "redirect_uris",
          "invalid redirect uri: " ++ u⟩), false))
    ∧ validRedirectURI "invalid" = false
    ∧ validRedirectURI "//example.com/redirect" = false
    ∧ validRedirectURI "https://example.com/redirect#fragment" = false
    ∧ validRedirectURI "https://example.com/redirect" = true := by
  refine ⟨?_, by decide, by decide, by decide, by decide⟩
  intro env cfg md u hprof hen h1 h2 h3 h4 h5 h6 h7 hu
  have h8 : checkRedirectURIs md =
      some ⟨.invalidRedirectURI, "redirect_uris", "invalid redirect uri: " ++ u⟩ := by
    rw [checkRedirectURIs, hu]
  have hv : validateMetadata cfg md =
      some ⟨.invalidRedirectURI, "redirect_uris", "invalid redirect uri: " ++ u⟩ := by
    simp only [validateMetadata, h1, h2, h3, h4, h5, h6, h7, h8, firstCheck]
  simp only [createClient, hprof, hen, Bool.not_true, Bool.false_eq_true,
    if_false, hv]

/-- The metadata of the C8 witness: only a fragment-carrying redirect URI
is set. -/
def mdFrag : ClientMetadata :=
  ⟨[], [], [], "", ["https://example.com/redirect#fragment"], .absent, ""⟩

/-- Witness for C8: the fragment-carrying redirect URI of the tests is
rejected with the URI echoed verbatim and nothing persisted. -/
theorem invalid_redirect_uri_rejected_witness :
    createClient envC7 mdFrag =
      (.error (.registration ⟨.invalidRedirectURI, "redirect_uris",
        "invalid redirect uri: https://example.com/redirect#fragment"⟩), false) :=
  invalid_redirect_uri_rejected.1 envC7 ⟨["foo", "bar"], true⟩ mdFrag
    "https://example.com/redirect#fragment" rfl rfl rfl rfl rfl rfl rfl rfl rfl rfl

/-- Witness for C10 at concrete inputs: a document whose only service is
not LinkedDomains gives the no-service error; a LinkedDomains service with
an empty origins array hits the out-of-bounds access while a singleton
origins array does not. -/
theorem runLinkedDomain_first_service_spec_witness :
    runLinkedDomainLoop (fun _ _ => none) "did:ex:1"
        [⟨GoVal.vstr "Other", .origins ["https://x"]⟩] =
      .err "no LinkedDomains service in DID did:ex:1"
    ∧ runLinkedDomainLoop (fun _ _ => none) "did:ex:1"
        [⟨GoVal.vstr "Other", .origins ["https://x"]⟩,
         ⟨GoVal.vstr "LinkedDomains", .origins []⟩] =
      processLinkedService (fun _ _ => none) "did:ex:1"
        ⟨GoVal.vstr "LinkedDomains", .origins []⟩
    ∧ processLinkedService (fun _ _ => none) "did:ex:1"
        ⟨GoVal.vstr "LinkedDomains", .origins []⟩ = .indexOutOfRange
    ∧ processLinkedService (fun _ _ => none) "did:ex:1"
        ⟨GoVal.vstr "LinkedDomains", .origins ["https://x/"]⟩ ≠ .indexOutOfRange := by
  refine ⟨?_, ?_, ?_, ?_⟩
  · exact runLinkedDomain_first_service_spec.1 (fun _ _ => none) "did:ex:1" _
      (by intro s hs; simp at hs; subst hs; decide)
  · exact runLinkedDomain_first_service_spec.2.1 (fun _ _ => none) "did:ex:1"
      [⟨GoVal.vstr "Other", .origins ["https://x"]⟩]
      ⟨GoVal.vstr "LinkedDomains", .origins []⟩ []
      (by intro t ht; simp at ht; subst ht; decide) (by decide)
  · exact runLinkedDomain_first_service_spec.2.2.1 (fun _ _ => none) "did:ex:1" _ rfl
  · exact runLinkedDomain_first_service_spec.2.2.2 (fun _ _ => none) "did:ex:1" _
      "https://x/" [] rfl

end Vcs
